import Mathlib

/-!
Shallow embedding of the diabetes-risk prediction app (src/app.py) and
verification of its specified behaviour.

Python floats are modelled as rationals (`ℚ`): every comparison the app
performs on probabilities and thresholds is an order comparison, which `ℚ`
captures exactly.  Form values are integers (`ℤ`).  The Streamlit widgets
and the pickled classifier are external collaborators; they are modelled by
their interface contracts (a radio returns one of its listed option values,
a slider returns a value clamped to its bounds, the classifier is an opaque
function from the input dataframe to a probability).
-/

namespace MLDP

/-- `MODEL_FEATURES` (app.py lines 16-19): the hardcoded eleven-element
feature order used to build the model input row. -/
def MODEL_FEATURES : List String :=
  ["HighBP", "HighChol", "BMI", "Stroke", "HeartDiseaseorAttack",
   "PhysActivity", "HvyAlcoholConsump", "GenHlth", "DiffWalk", "Sex", "Age"]

/-- `RISK_LEVELS` (app.py lines 22-26): the dict of probability intervals to
(label, css class), kept in insertion order as Python dicts preserve it. -/
def RISK_LEVELS : List ((ℚ × ℚ) × (String × String)) :=
  [((0, 3/10), ("Low Risk", "low")),
   ((3/10, 1/2), ("Medium Risk", "medium")),
   ((1/2, 1), ("High Risk", "high"))]

/-- The loop body of `get_risk_level` (app.py lines 112-114): scan the
interval table, returning the first entry with `min_val <= prob < max_val`;
line 115 supplies the fallback when the scan is exhausted. -/
def riskScan (prob : ℚ) : List ((ℚ × ℚ) × (String × String)) → String × String
  | [] => ("High Risk", "high")
  | ((mn, mx), r) :: rest => if mn ≤ prob ∧ prob < mx then r else riskScan prob rest

/-- `get_risk_level` (app.py lines 110-115). -/
def get_risk_level (prob : ℚ) : String × String :=
  riskScan prob RISK_LEVELS

/-- `is_diabetic = prob >= threshold` (app.py line 143). -/
def is_diabetic (prob threshold : ℚ) : Bool :=
  decide (threshold ≤ prob)

/-- The branch at app.py lines 146-151: the pair
`(result_text, box_class)` produced for a predicted probability and
threshold. -/
def result_text (prob threshold : ℚ) : String × String :=
  if is_diabetic prob threshold then
    let rl := get_risk_level prob
    ("Our model predicts you are <strong>Diabetic</strong>. Risk Level: <strong>"
       ++ rl.1 ++ "</strong>.", rl.2)
  else
    ("Our model predicts you are <strong>Not Diabetic</strong>.", "no")

/-- The styled status line rendered by `st.markdown` at app.py line 153:
the result text wrapped in the `result-box` div carrying the css class. -/
def rendered (prob threshold : ℚ) : String :=
  "<div class=\"result-box " ++ (result_text prob threshold).2 ++ "\">"
    ++ (result_text prob threshold).1 ++ "</div>"

/-- The one-row tabular record handed to the classifier
(`pd.DataFrame([input_data], columns=MODEL_FEATURES)`, app.py line 139). -/
structure DataFrame where
  columns : List String
  row : List ℤ
deriving Repr, DecidableEq

/-- The pickled classifier object: opaque to this app, exposing only its
`predict_proba` operation, modelled as a function from the input dataframe
to the positive-class probability (`predict_proba(input_df)[0, 1]`,
app.py line 142). -/
structure Model where
  predict_proba : DataFrame → ℚ

/-- The deserialized bundle `data` (app.py line 10) with its three named
fields `model`, `threshold`, `features`. -/
structure Bundle where
  model : Model
  threshold : ℚ
  features : List String

/-- `load_model` (app.py lines 7-11): returns
`data["model"], data["threshold"], data["features"]`. -/
def load_model (data : Bundle) : Model × ℚ × List String :=
  (data.model, data.threshold, data.features)

/-- Python dict lookup on the form record, modelled as first-match lookup
in an association list (keys are unique in the app's dict literal). -/
def lookupD : List (String × ℤ) → String → ℤ
  | [], _ => 0
  | (k, v) :: rest, q => if k = q then v else lookupD rest q

/-- `input_data = [form_data[feature] for feature in MODEL_FEATURES]`
(app.py line 138): the row is built by iterating the fixed feature list,
not the form dictionary. -/
def input_data (form : List (String × ℤ)) : List ℤ :=
  MODEL_FEATURES.map (lookupD form)

/-- `input_df = pd.DataFrame([input_data], columns=MODEL_FEATURES)`
(app.py line 139). -/
def input_df (form : List (String × ℤ)) : DataFrame :=
  ⟨MODEL_FEATURES, input_data form⟩

/-- The submission handler (app.py lines 136-153) from form record to the
rendered status line: build the row, ask the model for a probability,
compare against the threshold and render. -/
def run_submission (data : Bundle) (form : List (String × ℤ)) : String :=
  let loaded := load_model data
  rendered (loaded.1.predict_proba (input_df form)) loaded.2.1

/-! ### Widgets (external collaborators, modelled by their contracts)

A Streamlit radio/selectbox can only yield one of its listed options, and a
slider only a value within its bounds; the user's interaction is the
remaining free choice. -/

/-- `st.radio` over (label, value) options: the user picks one of the
listed options. -/
def radio (options : List (String × ℤ)) (choice : Fin options.length) :
    String × ℤ :=
  options.get choice

/-- `create_radio` (app.py lines 106-108): a yes/no radio returning the
selected option's value (0 for "No", 1 for "Yes"). -/
def create_radio (choice : Fin 2) : ℤ :=
  (radio [("No", 0), ("Yes", 1)] choice).2

/-- `st.slider(label, lo, hi, dflt)`: the widget constrains the returned
value to `[lo, hi]`; the user's choice is clamped to the bounds. -/
def slider (lo hi _dflt choice : ℤ) : ℤ :=
  max lo (min hi choice)

/-- `st.selectbox` over a list of options: the user picks one of them. -/
def selectbox (options : List ℤ) (choice : Fin options.length) : ℤ :=
  options.get choice

/-- The user's interactions with the eleven widgets of the form. -/
structure FormChoices where
  bp : Fin 2
  chol : Fin 2
  bmi : ℤ
  stroke : Fin 2
  heart : Fin 2
  activity : Fin 2
  alcohol : Fin 2
  genHlth : Fin 5
  walk : Fin 2
  sex : Fin 2
  age : ℤ

/-- `form_data` (app.py lines 119-131): the dict literal built from the
eleven widgets, with `range(1, 6)` for GenHlth, slider bounds 10-60 for
BMI and 0-100 for Age. -/
def form_data (c : FormChoices) : List (String × ℤ) :=
  [("HighBP", create_radio c.bp),
   ("HighChol", create_radio c.chol),
   ("BMI", slider 10 60 24 c.bmi),
   ("Stroke", create_radio c.stroke),
   ("HeartDiseaseorAttack", create_radio c.heart),
   ("PhysActivity", create_radio c.activity),
   ("HvyAlcoholConsump", create_radio c.alcohol),
   ("GenHlth", selectbox [1, 2, 3, 4, 5] c.genHlth),
   ("DiffWalk", create_radio c.walk),
   ("Sex", (radio [("Female", 0), ("Male", 1)] c.sex).2),
   ("Age", slider 0 100 18 c.age)]

/-! ### String containment, for statements about the rendered output -/

/-- `startsL pat s`: the char list `pat` is an initial segment of `s`. -/
def startsL : List Char → List Char → Bool
  | [], _ => true
  | _ :: _, [] => false
  | a :: as, b :: bs => a == b && startsL as bs

/-- `hasSub pat s`: `pat` occurs contiguously somewhere inside `s`. -/
def hasSub : List Char → List Char → Bool
  | pat, [] => startsL pat []
  | pat, c :: rest => startsL pat (c :: rest) || hasSub pat rest

/-- `containsStr pat s`: the string `pat` occurs as a substring of `s`. -/
def containsStr (pat s : String) : Bool :=
  hasSub pat.data s.data

/-! ### Helper lemmas -/

/-- Unfolding the interval scan over the concrete `RISK_LEVELS` table. -/
lemma get_risk_level_eq (p : ℚ) :
    get_risk_level p =
      if 0 ≤ p ∧ p < 3/10 then ("Low Risk", "low")
      else if 3/10 ≤ p ∧ p < 1/2 then ("Medium Risk", "medium")
      else if 1/2 ≤ p ∧ p < 1 then ("High Risk", "high")
      else ("High Risk", "high") :=
  rfl

/-- The scan always lands on one of the three label/class pairs. -/
lemma get_risk_level_cases (p : ℚ) :
    get_risk_level p = ("Low Risk", "low") ∨
      get_risk_level p = ("Medium Risk", "medium") ∨
      get_risk_level p = ("High Risk", "high") := by
  rw [get_risk_level_eq]
  split_ifs <;> simp

/-- The diabetic result text differs from the not-diabetic one whatever the
risk label is (their lengths cannot agree). -/
lemma diabetic_text_ne (s : String) :
    "Our model predicts you are <strong>Diabetic</strong>. Risk Level: <strong>"
        ++ s ++ "</strong>." ≠
      "Our model predicts you are <strong>Not Diabetic</strong>." := by
  intro h
  have hlen := congrArg String.length h
  rw [String.length_append, String.length_append] at hlen
  have h1 : ("Our model predicts you are <strong>Diabetic</strong>. Risk Level: <strong>" : String).length = 74 := by decide
  have h2 : ("</strong>." : String).length = 10 := by decide
  have h3 : ("Our model predicts you are <strong>Not Diabetic</strong>." : String).length = 57 := by decide
  rw [h1, h2, h3] at hlen
  omega

/-- The result text produced when `is_diabetic` holds. -/
lemma result_text_of_diabetic (p t : ℚ) (h : t ≤ p) :
    result_text p t =
      ("Our model predicts you are <strong>Diabetic</strong>. Risk Level: <strong>"
          ++ (get_risk_level p).1 ++ "</strong>.", (get_risk_level p).2) := by
  simp [result_text, is_diabetic, h]

/-- The result text produced when `is_diabetic` fails. -/
lemma result_text_of_not_diabetic (p t : ℚ) (h : p < t) :
    result_text p t =
      ("Our model predicts you are <strong>Not Diabetic</strong>.", "no") := by
  simp [result_text, is_diabetic, not_le.mpr h]

/-! ### Claim theorems -/

/-- C1: the submission is classified "Not Diabetic" exactly when `p < t`,
and "Diabetic" (with its risk label) otherwise, i.e. when `p ≥ t`. -/
theorem not_diabetic_iff_below_threshold (p t : ℚ) :
    ((result_text p t).1 =
        "Our model predicts you are <strong>Not Diabetic</strong>." ↔ p < t) ∧
    (t ≤ p → (result_text p t).1 =
        "Our model predicts you are <strong>Diabetic</strong>. Risk Level: <strong>"
          ++ (get_risk_level p).1 ++ "</strong>.") := by
  rcases le_or_lt t p with h | h
  · have hd := result_text_of_diabetic p t h
    refine ⟨⟨fun heq => ?_, fun hlt => absurd hlt (not_lt.mpr h)⟩, fun _ => by rw [hd]⟩
    rw [hd] at heq
    exact absurd heq (diabetic_text_ne _)
  · have hd := result_text_of_not_diabetic p t h
    exact ⟨⟨fun _ => h, fun _ => by rw [hd]⟩, fun hle => absurd h (not_lt.mpr hle)⟩

/-- C1 witness: at `p = 1, t = 2` the text is the "Not Diabetic" one, and at
`p = 1, t = 1/2` it is the "Diabetic / High Risk" one. -/
theorem not_diabetic_iff_below_threshold_witness :
    (result_text 1 2).1 =
        "Our model predicts you are <strong>Not Diabetic</strong>." ∧
      (result_text 1 (1/2)).1 =
        "Our model predicts you are <strong>Diabetic</strong>. Risk Level: <strong>"
          ++ (get_risk_level 1).1 ++ "</strong>." :=
  ⟨(not_diabetic_iff_below_threshold 1 2).1.mpr (by norm_num),
   (not_diabetic_iff_below_threshold 1 (1/2)).2 (by norm_num)⟩

/-- C4 counterexample: at `p = t = 1/2` the code classifies the submission
positive (`is_diabetic` is true) even though `p` is not strictly above `t`,
refuting "at `p` equal to `t` the submission is not classified positive". -/
theorem strict_threshold_cex :
    is_diabetic (1/2) (1/2) = true ∧ ¬ ((1/2 : ℚ) > 1/2) := by
  refine ⟨?_, lt_irrefl _⟩
  simp [is_diabetic]

/-- C4 amended: a submission is classified positive exactly when the
predicted probability is at or above the threshold (`p ≥ t`); at `p = t`
it is classified positive. -/
theorem positive_iff_at_or_above_threshold (p t : ℚ) :
    (is_diabetic p t = true ↔ t ≤ p) ∧ is_diabetic t t = true := by
  constructor
  · simp [is_diabetic]
  · simp [is_diabetic]

/-- C2: for probabilities (nonnegative, as `predict_proba` outputs are) at
or above the threshold, the scan yields "Low Risk" on `[t, 0.3)`,
"Medium Risk" on `[0.3, 0.5)` and "High Risk" on `[0.5, 1]`; the
boundary values `0.3` and `0.5` fall into the upper band. -/
theorem risk_bands_for_diabetic (p t : ℚ) (hp : 0 ≤ p) :
    (t ≤ p → p < 3/10 → get_risk_level p = ("Low Risk", "low")) ∧
    (3/10 ≤ p → p < 1/2 → get_risk_level p = ("Medium Risk", "medium")) ∧
    (1/2 ≤ p → p ≤ 1 → get_risk_level p = ("High Risk", "high")) ∧
    get_risk_level (3/10) = ("Medium Risk", "medium") ∧
    get_risk_level (1/2) = ("High Risk", "high") := by
  refine ⟨fun _ h1 => ?_, fun h0 h1 => ?_, fun h0 _ => ?_, ?_, ?_⟩
  · rw [get_risk_level_eq, if_pos ⟨hp, h1⟩]
  · rw [get_risk_level_eq, if_neg ?_, if_pos ⟨h0, h1⟩]
    rintro ⟨-, hc⟩
    linarith
  · rcases lt_or_le p 1 with h1 | h1
    · rw [get_risk_level_eq, if_neg ?_, if_neg ?_, if_pos ⟨h0, h1⟩]
      · rintro ⟨-, hc⟩
        linarith
      · rintro ⟨-, hc⟩
        linarith
    · rw [get_risk_level_eq, if_neg ?_, if_neg ?_, if_neg ?_] <;>
        · rintro ⟨-, hc⟩
          linarith
  · rw [get_risk_level_eq, if_neg ?_, if_pos ⟨le_refl _, by norm_num⟩]
    rintro ⟨-, hc⟩
    exact absurd hc (by norm_num)
  · rw [get_risk_level_eq, if_neg ?_, if_neg ?_, if_pos ⟨le_refl _, by norm_num⟩]
    · rintro ⟨-, hc⟩
      exact absurd hc (by norm_num)
    · rintro ⟨-, hc⟩
      exact absurd hc (by norm_num)

/-- C2 witness: concrete probabilities in each band. -/
theorem risk_bands_for_diabetic_witness :
    get_risk_level (1/5) = ("Low Risk", "low") ∧
      get_risk_level (2/5) = ("Medium Risk", "medium") ∧
      get_risk_level (3/4) = ("High Risk", "high") :=
  ⟨(risk_bands_for_diabetic (1/5) (1/10) (by norm_num)).1 (by norm_num) (by norm_num),
   (risk_bands_for_diabetic (2/5) (1/10) (by norm_num)).2.1 (by norm_num) (by norm_num),
   (risk_bands_for_diabetic (3/4) (1/10) (by norm_num)).2.2.1 (by norm_num) (by norm_num)⟩

/-- C5: any probability captured by none of the three intervals — in
particular any value at or above 1.0 — falls through the scan to the
"High Risk" fallback. -/
theorem risk_fallback_high (p : ℚ) :
    (¬(0 ≤ p ∧ p < 3/10) → ¬(3/10 ≤ p ∧ p < 1/2) → ¬(1/2 ≤ p ∧ p < 1) →
      get_risk_level p = ("High Risk", "high")) ∧
    (1 ≤ p → get_risk_level p = ("High Risk", "high")) := by
  constructor
  · intro a b c
    rw [get_risk_level_eq, if_neg a, if_neg b, if_neg c]
  · intro h1
    rw [get_risk_level_eq, if_neg ?_, if_neg ?_, if_neg ?_] <;>
      · rintro ⟨-, hc⟩
        linarith

/-- C5 witness: `p = 3/2` (above 1.0) is labeled "High Risk". -/
theorem risk_fallback_high_witness :
    get_risk_level (3/2) = ("High Risk", "high") ∧
      get_risk_level (-2) = ("High Risk", "high") :=
  ⟨(risk_fallback_high (3/2)).2 (by norm_num),
   (risk_fallback_high (-2)).1 (by norm_num) (by norm_num) (by norm_num)⟩

/-- C10: `get_risk_level` is total — it returns a result on every input —
and every input below 0.0 falls through all three intervals to the
("High Risk", "high") fallback. -/
theorem risk_total_and_negative_fallback (p : ℚ) :
    (∃ r : String × String, get_risk_level p = r) ∧
    (p < 0 → get_risk_level p = ("High Risk", "high")) := by
  refine ⟨⟨get_risk_level p, rfl⟩, fun hneg => ?_⟩
  rw [get_risk_level_eq, if_neg ?_, if_neg ?_, if_neg ?_] <;>
    · rintro ⟨hc, -⟩
      linarith

/-- C10 witness: `p = -1/2` is labeled "High Risk" by the fallback. -/
theorem risk_total_and_negative_fallback_witness :
    get_risk_level (-1/2) = ("High Risk", "high") :=
  (risk_total_and_negative_fallback (-1/2)).2 (by norm_num)

/-- C3 counterexample: a bundle whose loaded `features` list is not the
hardcoded order — here `["Age"]` — shows the record's column order does not
equal the artifact's `features` list: the code builds columns from the
hardcoded `MODEL_FEATURES` and never consults the loaded list. -/
theorem columns_match_loaded_features_cex :
    (input_df []).columns ≠
      (load_model ⟨⟨fun _ => 0⟩, 1/2, ["Age"]⟩).2.2 := by
  decide

/-- C3 amended: the record handed to `predict_proba` has its columns in the
hardcoded `MODEL_FEATURES` order for every bundle and form; this equals the
bundle's loaded `features` list exactly when that list itself is
`MODEL_FEATURES`. -/
theorem columns_are_hardcoded_order (data : Bundle) (form : List (String × ℤ)) :
    (input_df form).columns = MODEL_FEATURES ∧
    ((load_model data).2.2 = MODEL_FEATURES →
      (input_df form).columns = (load_model data).2.2) :=
  ⟨rfl, fun h => h.symm⟩

/-- C3 witness: with a bundle whose `features` is the hardcoded list, the
record's columns do match it. -/
theorem columns_are_hardcoded_order_witness :
    (input_df []).columns =
      (load_model ⟨⟨fun _ => 0⟩, 1/2, MODEL_FEATURES⟩).2.2 :=
  (columns_are_hardcoded_order ⟨⟨fun _ => 0⟩, 1/2, MODEL_FEATURES⟩ []).2 rfl

/-- C6: the row is built by iterating the fixed `MODEL_FEATURES` list, so
any two form dictionaries with the same values on the eleven features give
the same row, and the row lists the values in the fixed order. -/
theorem row_order_fixed (form1 form2 : List (String × ℤ))
    (h : ∀ k ∈ MODEL_FEATURES, lookupD form1 k = lookupD form2 k) :
    input_data form1 = input_data form2 ∧
    input_data form1 =
      [lookupD form1 "HighBP", lookupD form1 "HighChol", lookupD form1 "BMI",
       lookupD form1 "Stroke", lookupD form1 "HeartDiseaseorAttack",
       lookupD form1 "PhysActivity", lookupD form1 "HvyAlcoholConsump",
       lookupD form1 "GenHlth", lookupD form1 "DiffWalk", lookupD form1 "Sex",
       lookupD form1 "Age"] := by
  constructor
  · simp only [input_data]
    exact List.map_congr_left h
  · simp [input_data, MODEL_FEATURES]

/-- C6 witness: reordering the entries of a concrete form dictionary leaves
the built row unchanged. -/
theorem row_order_fixed_witness :
    input_data [("HighBP", 1), ("BMI", 30)] =
      input_data [("BMI", 30), ("HighBP", 1)] :=
  (row_order_fixed [("HighBP", 1), ("BMI", 30)] [("BMI", 30), ("HighBP", 1)]
    (by decide)).1

/-- C8: the rendered outcome is a pure function of the predicted
probability and the loaded threshold — two submissions whose records get
the same probability from the model render identically, whatever else
differs between their forms. -/
theorem classification_deterministic (data : Bundle)
    (form1 form2 : List (String × ℤ))
    (h : data.model.predict_proba (input_df form1) =
      data.model.predict_proba (input_df form2)) :
    run_submission data form1 = run_submission data form2 := by
  simp only [run_submission, load_model]
  rw [h]

/-- C8 witness: a constant-probability model renders two different forms
identically. -/
theorem classification_deterministic_witness :
    run_submission ⟨⟨fun _ => 1/4⟩, 1/2, MODEL_FEATURES⟩ [] =
      run_submission ⟨⟨fun _ => 1/4⟩, 1/2, MODEL_FEATURES⟩ [("Age", 50)] :=
  classification_deterministic ⟨⟨fun _ => 1/4⟩, 1/2, MODEL_FEATURES⟩ []
    [("Age", 50)] rfl

/-- A yes/no radio can only yield 0 or 1. -/
lemma create_radio_cases (i : Fin 2) : create_radio i = 0 ∨ create_radio i = 1 := by
  fin_cases i <;> decide

/-- The gender radio can only yield 0 or 1. -/
lemma sex_radio_cases (i : Fin 2) :
    (radio [("Female", 0), ("Male", 1)] i).2 = 0 ∨
      (radio [("Female", 0), ("Male", 1)] i).2 = 1 := by
  fin_cases i <;> decide

/-- The GenHlth selectbox over `range(1, 6)` yields a value in 1..5. -/
lemma selectbox_genHlth_bounds (i : Fin 5) :
    1 ≤ selectbox [1, 2, 3, 4, 5] i ∧ selectbox [1, 2, 3, 4, 5] i ≤ 5 := by
  fin_cases i <;> decide

/-- A slider yields a value within its bounds. -/
lemma slider_bounds (lo hi d x : ℤ) (h : lo ≤ hi) :
    lo ≤ slider lo hi d x ∧ slider lo hi d x ≤ hi :=
  ⟨le_max_left _ _, max_le h (min_le_left _ _)⟩

/-- C9: every record built from the form satisfies the field bounds — the
seven binary flags and Sex are in 0/1, GenHlth in 1..5, BMI in 10..60 and
Age in 0..100, whatever the user does to the widgets. -/
theorem form_record_bounds (c : FormChoices) :
    (lookupD (form_data c) "HighBP" = 0 ∨ lookupD (form_data c) "HighBP" = 1) ∧
    (lookupD (form_data c) "HighChol" = 0 ∨ lookupD (form_data c) "HighChol" = 1) ∧
    (lookupD (form_data c) "Stroke" = 0 ∨ lookupD (form_data c) "Stroke" = 1) ∧
    (lookupD (form_data c) "HeartDiseaseorAttack" = 0 ∨
      lookupD (form_data c) "HeartDiseaseorAttack" = 1) ∧
    (lookupD (form_data c) "PhysActivity" = 0 ∨
      lookupD (form_data c) "PhysActivity" = 1) ∧
    (lookupD (form_data c) "HvyAlcoholConsump" = 0 ∨
      lookupD (form_data c) "HvyAlcoholConsump" = 1) ∧
    (lookupD (form_data c) "DiffWalk" = 0 ∨ lookupD (form_data c) "DiffWalk" = 1) ∧
    (lookupD (form_data c) "Sex" = 0 ∨ lookupD (form_data c) "Sex" = 1) ∧
    (1 ≤ lookupD (form_data c) "GenHlth" ∧ lookupD (form_data c) "GenHlth" ≤ 5) ∧
    (10 ≤ lookupD (form_data c) "BMI" ∧ lookupD (form_data c) "BMI" ≤ 60) ∧
    (0 ≤ lookupD (form_data c) "Age" ∧ lookupD (form_data c) "Age" ≤ 100) := by
  have e1 : lookupD (form_data c) "HighBP" = create_radio c.bp := by
    simp +decide [form_data, lookupD]
  have e2 : lookupD (form_data c) "HighChol" = create_radio c.chol := by
    simp +decide [form_data, lookupD]
  have e3 : lookupD (form_data c) "BMI" = slider 10 60 24 c.bmi := by
    simp +decide [form_data, lookupD]
  have e4 : lookupD (form_data c) "Stroke" = create_radio c.stroke := by
    simp +decide [form_data, lookupD]
  have e5 : lookupD (form_data c) "HeartDiseaseorAttack" = create_radio c.heart := by
    simp +decide [form_data, lookupD]
  have e6 : lookupD (form_data c) "PhysActivity" = create_radio c.activity := by
    simp +decide [form_data, lookupD]
  have e7 : lookupD (form_data c) "HvyAlcoholConsump" = create_radio c.alcohol := by
    simp +decide [form_data, lookupD]
  have e8 : lookupD (form_data c) "GenHlth" = selectbox [1, 2, 3, 4, 5] c.genHlth := by
    simp +decide [form_data, lookupD]
  have e9 : lookupD (form_data c) "DiffWalk" = create_radio c.walk := by
    simp +decide [form_data, lookupD]
  have e10 : lookupD (form_data c) "Sex" = (radio [("Female", 0), ("Male", 1)] c.sex).2 := by
    simp +decide [form_data, lookupD]
  have e11 : lookupD (form_data c) "Age" = slider 0 100 18 c.age := by
    simp +decide [form_data, lookupD]
  rw [e1, e2, e3, e4, e5, e6, e7, e8, e9, e10, e11]
  exact ⟨create_radio_cases c.bp, create_radio_cases c.chol,
    create_radio_cases c.stroke, create_radio_cases c.heart,
    create_radio_cases c.activity, create_radio_cases c.alcohol,
    create_radio_cases c.walk, sex_radio_cases c.sex,
    selectbox_genHlth_bounds c.genHlth,
    slider_bounds 10 60 24 c.bmi (by norm_num),
    slider_bounds 0 100 18 c.age (by norm_num)⟩

/-- C7: a risk label appears in the rendered status line only for positive
classifications — for `p ≥ t` the line contains "Diabetic" and exactly one
of the three risk labels, and for `p < t` it contains "Not Diabetic" and
none of them. -/
theorem risk_label_only_when_positive (p t : ℚ) :
    (t ≤ p → containsStr "Diabetic" (rendered p t) = true ∧
      ((containsStr "Low Risk" (rendered p t) = true ∧
        containsStr "Medium Risk" (rendered p t) = false ∧
        containsStr "High Risk" (rendered p t) = false) ∨
       (containsStr "Low Risk" (rendered p t) = false ∧
        containsStr "Medium Risk" (rendered p t) = true ∧
        containsStr "High Risk" (rendered p t) = false) ∨
       (containsStr "Low Risk" (rendered p t) = false ∧
        containsStr "Medium Risk" (rendered p t) = false ∧
        containsStr "High Risk" (rendered p t) = true))) ∧
    (p < t → containsStr "Not Diabetic" (rendered p t) = true ∧
      containsStr "Low Risk" (rendered p t) = false ∧
      containsStr "Medium Risk" (rendered p t) = false ∧
      containsStr "High Risk" (rendered p t) = false) := by
  constructor
  · intro h
    have hr := result_text_of_diabetic p t h
    rcases get_risk_level_cases p with hc | hc | hc <;>
      · simp only [rendered, hr, hc]
        refine ⟨by decide, ?_⟩
        first
          | exact Or.inl (by decide)
          | exact Or.inr (Or.inl (by decide))
          | exact Or.inr (Or.inr (by decide))
  · intro h
    have hr := result_text_of_not_diabetic p t h
    simp only [rendered, hr]
    exact ⟨by decide, by decide, by decide, by decide⟩

/-- C7 witness: at `p = 3/5, t = 2/5` the rendered line names a risk label;
at `p = 1/5, t = 2/5` it says "Not Diabetic" with no "Low Risk" label. -/
theorem risk_label_only_when_positive_witness :
    containsStr "Diabetic" (rendered (3/5) (2/5)) = true ∧
      (containsStr "Not Diabetic" (rendered (1/5) (2/5)) = true ∧
        containsStr "Low Risk" (rendered (1/5) (2/5)) = false) :=
  ⟨((risk_label_only_when_positive (3/5) (2/5)).1 (by norm_num)).1,
   ((risk_label_only_when_positive (1/5) (2/5)).2 (by norm_num)).1,
   ((risk_label_only_when_positive (1/5) (2/5)).2 (by norm_num)).2.1⟩

end MLDP
